import Mathlib

/-!
Shallow embedding of the storefront backend (FastAPI + MongoDB) and proofs
about its authentication, authorization, cart-ownership, registration and
product-listing behaviour.  Definitions follow the Python source in
`app/auth.py`, `app/db.py`, `app/utils.py`, `app/main.py`,
`app/routers/{carts,products,users}.py`.

Modelling conventions:
* MongoDB `ObjectId` values are opaque identifiers; we model them as `Nat`.
* Collections are lists of documents; `find_one` returns the first match,
  `update_one` / `delete_one` affect the first match, mirroring MongoDB.
* `HTTPException(status_code, detail, headers)` becomes the `HTTPError`
  record; handlers return `Except HTTPError α`.
* Time is in whole seconds (`Nat`); a JWT is modelled as its decoded content
  plus the key it was signed with and an intactness flag (signature /
  structure validity), so that `jwt.decode` can be expressed as: fail if
  tampered, fail if the key differs, fail if `exp ≤ now` (PyJWT expiry
  semantics with zero leeway), otherwise return the payload.
-/

deriving instance DecidableEq for Except

namespace App

/-- MongoDB ObjectId, modelled as an opaque natural number. -/
abbrev ObjectId := Nat

/-- `fastapi.HTTPException`: status code, detail message, extra headers. -/
structure HTTPError where
  status : Nat
  detail : String
  headers : List (String × String)
  deriving Repr, DecidableEq

/-! ### `app/auth.py` — token codec, permission resolution, authorization -/

/-- `SECRET_KEY` from `app/auth.py`. -/
def SECRET_KEY : String :=
  "09d25e094faa6ca2556c818166b7a9563b93f7099f6f0f4caa6cf63b88e8d3e7"

/-- `ACCESS_TOKEN_EXPIRE_MINUTES` from `app/auth.py`. -/
def ACCESS_TOKEN_EXPIRE_MINUTES : Nat := 1440

/-- The claims of a decoded JWT that the application uses: the optional
`sub` claim and the `exp` timestamp (seconds). -/
structure JWTPayload where
  sub : Option String
  exp : Nat
  deriving Repr, DecidableEq

/-- A bearer token as seen by `jwt.decode`: the payload it carries, the key
it was signed with, and whether its structure/signature is intact (a
tampered or malformed token has `intact := false`). -/
structure JWTToken where
  payload : JWTPayload
  key : String
  intact : Bool
  deriving Repr, DecidableEq

/-- The two failure classes of `jwt.decode`; both are subclasses of
`jwt.InvalidTokenError` in PyJWT and are caught together by the code. -/
inductive JWTError where
  | invalid
  | expired
  deriving Repr, DecidableEq

/-- `jwt.decode(token, key, algorithms=[ALGORITHM])` at time `now`:
rejects a structurally invalid/tampered token, a wrong-key signature, and
an expired token (PyJWT raises `ExpiredSignatureError` when
`exp <= now - leeway`, with `leeway = 0`). -/
def jwtDecode (tok : JWTToken) (key : String) (now : Nat) :
    Except JWTError JWTPayload :=
  if tok.intact = false then .error .invalid
  else if tok.key ≠ key then .error .invalid
  else if tok.payload.exp ≤ now then .error .expired
  else .ok tok.payload

/-- `create_access_token(data)` called at time `now`: copies the data
(here: its `sub` entry) and sets `exp = now + ACCESS_TOKEN_EXPIRE_MINUTES`
(minutes, i.e. `* 60` seconds), signing with `SECRET_KEY`. -/
def create_access_token (sub : Option String) (now : Nat) : JWTToken :=
  { payload := { sub := sub, exp := now + ACCESS_TOKEN_EXPIRE_MINUTES * 60 }
    key := SECRET_KEY
    intact := true }

/-- A document of the `users` collection. -/
structure UserDoc where
  id : ObjectId
  username : String
  hashed_password : String
  deriving Repr, DecidableEq

/-- A document of the `permissions` collection: one scope grant. -/
structure PermissionDoc where
  user_id : ObjectId
  scope : String
  deriving Repr, DecidableEq

/-- The slice of the database that authentication reads. -/
structure AuthDB where
  users : List UserDoc
  permissions : List PermissionDoc
  deriving Repr, DecidableEq

/-- `PermissionData` from `app/auth.py`: resolved identity id plus its
scope set (modelled as the list of granted scopes; only membership is ever
used). -/
structure PermissionData where
  user_id : ObjectId
  permissions : List String
  deriving Repr, DecidableEq

/-- `get_user_permissions(db, username)`: find the user by username; if
none, return `None`; otherwise collect the `scope` field of every
permission document whose `user_id` matches. -/
def get_user_permissions (db : AuthDB) (username : String) :
    Option PermissionData :=
  match db.users.find? (fun u => u.username = username) with
  | none => none
  | some u =>
      some { user_id := u.id
             permissions :=
               (db.permissions.filter (fun p => p.user_id = u.id)).map
                 (fun p => p.scope) }

/-- The `credentials_exception` of `get_current_permission_data`: 401 with
a bearer challenge, shared by every authentication-failure path. -/
def credentials_exception : HTTPError :=
  { status := 401
    detail := "Could not validate credentials"
    headers := [("WWW-Authenticate", "Bearer")] }

/-- `get_current_permission_data(db, token)` at time `now`: decode the
token (any `InvalidTokenError` → `credentials_exception`), reject an
absent `sub` claim, resolve the subject's permissions (unknown subject →
the same `credentials_exception`). -/
def get_current_permission_data (db : AuthDB) (token : JWTToken)
    (now : Nat) : Except HTTPError PermissionData :=
  match jwtDecode token SECRET_KEY now with
  | .error _ => .error credentials_exception
  | .ok payload =>
      match payload.sub with
      | none => .error credentials_exception
      | some username =>
          match get_user_permissions db username with
          | none => .error credentials_exception
          | some pd => .ok pd

/-- The error raised by `get_current_authorized_user_id` when a required
scope is missing: HTTP 401 with no extra headers. -/
def scope_error : HTTPError :=
  { status := 401
    detail := "User doesn't have necessary permissions"
    headers := [] }

/-- `get_current_authorized_user_id(security_scopes, permission_data)`:
iterate over the required scopes; if any is not among the principal's
permissions, raise `scope_error`; otherwise return the principal's id. -/
def get_current_authorized_user_id (securityScopes : List String)
    (pd : PermissionData) : Except HTTPError ObjectId :=
  match securityScopes with
  | [] => .ok pd.user_id
  | s :: rest =>
      if s ∈ pd.permissions then get_current_authorized_user_id rest pd
      else .error scope_error

/-! ### Theorems about the Authorizer (claims C1 and C3) -/

/-- Helper: the authorizer's full input/output characterisation. -/
theorem authorize_characterisation (req : List String)
    (pd : PermissionData) :
    (get_current_authorized_user_id req pd = .ok pd.user_id ↔
      ∀ s ∈ req, s ∈ pd.permissions) ∧
    (get_current_authorized_user_id req pd = .error scope_error ↔
      ¬ ∀ s ∈ req, s ∈ pd.permissions) := by
  induction req with
  | nil => simp [get_current_authorized_user_id]
  | cons s rest ih =>
      by_cases hs : s ∈ pd.permissions
      · simpa [get_current_authorized_user_id, hs] using ih
      · simp [get_current_authorized_user_id, hs]

/-- Claim C1: for every resolved principal and every required scope list,
the authorization check returns the principal's identity id iff every
required scope is a member of the principal's scope set, and it fails
(with the scope error) iff some required scope is missing — so holding
only some of several required scopes is denied, and holding a superset of
the required scopes is allowed. -/
theorem c1_authorize_iff_all_scopes (req : List String)
    (pd : PermissionData) :
    (get_current_authorized_user_id req pd = .ok pd.user_id ↔
      ∀ s ∈ req, s ∈ pd.permissions) ∧
    (get_current_authorized_user_id req pd = .error scope_error ↔
      ¬ ∀ s ∈ req, s ∈ pd.permissions) :=
  authorize_characterisation req pd

/-- Claim C3, counterexample: a principal with scopes `{shopper, me}`
failing the `admin` requirement is answered with HTTP status 401, not the
403 (Forbidden) the claim states. -/
theorem c3_counterexample_scope_failure_is_401 :
    get_current_authorized_user_id ["admin"]
      ⟨1, ["shopper", "me"]⟩ = .error scope_error ∧
    scope_error.status = 401 ∧ scope_error.status ≠ 403 := by
  refine ⟨?_, rfl, by decide⟩
  decide

/-- Claim C3, amended: when the resolved principal lacks at least one
required scope, the failure is reported with HTTP status 401 (the same
status code as authentication failures, not a distinct 403), though with
a different detail message and without the bearer challenge header. -/
theorem c3_amended_scope_failure_reported_as_401 (req : List String)
    (pd : PermissionData) (h : ∃ s ∈ req, s ∉ pd.permissions) :
    get_current_authorized_user_id req pd = .error scope_error ∧
    scope_error.status = 401 ∧
    scope_error.detail ≠ credentials_exception.detail ∧
    scope_error.headers = [] := by
  refine ⟨?_, rfl, by decide, rfl⟩
  exact (authorize_characterisation req pd).2.mpr (by
    intro hall
    obtain ⟨s, hs, hns⟩ := h
    exact hns (hall s hs))

/-- Witness for the amended claim C3 at a concrete denied request. -/
theorem c3_amended_witness :
    get_current_authorized_user_id ["admin"]
      ⟨2, ["shopper", "me"]⟩ = .error scope_error ∧
    scope_error.status = 401 ∧
    scope_error.detail ≠ credentials_exception.detail ∧
    scope_error.headers = [] :=
  c3_amended_scope_failure_reported_as_401 ["admin"] ⟨2, ["shopper", "me"]⟩
    (by decide)

/-! ### Theorems about the Authenticator (claims C4–C7) -/

/-- Claim C4: a request whose token fails signature/structure/expiry
validation and a request whose token is valid but names an unknown
subject receive the identical response: the same 401 status, the same
detail, the same `WWW-Authenticate: Bearer` header (both are the one
`credentials_exception` value). -/
theorem c4_auth_failures_indistinguishable (db1 db2 : AuthDB)
    (t1 t2 : JWTToken) (now1 now2 : Nat) (e : JWTError) (p : JWTPayload)
    (u : String)
    (h1 : jwtDecode t1 SECRET_KEY now1 = .error e)
    (h2 : jwtDecode t2 SECRET_KEY now2 = .ok p)
    (hsub : p.sub = some u)
    (hu : get_user_permissions db2 u = none) :
    get_current_permission_data db1 t1 now1 = .error credentials_exception ∧
    get_current_permission_data db2 t2 now2 = .error credentials_exception ∧
    credentials_exception.status = 401 ∧
    credentials_exception.headers = [("WWW-Authenticate", "Bearer")] := by
  refine ⟨?_, ?_, rfl, rfl⟩
  · simp [get_current_permission_data, h1]
  · simp [get_current_permission_data, h2, hsub, hu]

/-- Witness for claim C4: a tampered token and a valid token for a subject
absent from an empty store receive the identical 401 response. -/
theorem c4_witness :
    get_current_permission_data ⟨[], []⟩
      ⟨⟨some "alice", 100⟩, SECRET_KEY, false⟩ 0 =
        .error credentials_exception ∧
    get_current_permission_data ⟨[], []⟩
      (create_access_token (some "bob") 0) 0 =
        .error credentials_exception ∧
    credentials_exception.status = 401 ∧
    credentials_exception.headers = [("WWW-Authenticate", "Bearer")] :=
  c4_auth_failures_indistinguishable ⟨[], []⟩ ⟨[], []⟩
    ⟨⟨some "alice", 100⟩, SECRET_KEY, false⟩
    (create_access_token (some "bob") 0) 0 0 .invalid
    ⟨some "bob", ACCESS_TOKEN_EXPIRE_MINUTES * 60⟩ "bob"
    rfl rfl rfl rfl

/-- Claim C5: a token issued at time `T` carries expiry exactly
`T + 1440` minutes, and decoding it at any time at or after that instant
fails (PyJWT `ExpiredSignatureError`) and is reported as the 401
Unauthorized credentials response. -/
theorem c5_token_expiry (sub : Option String) (db : AuthDB) (T t : Nat)
    (h : T + 1440 * 60 ≤ t) :
    (create_access_token sub T).payload.exp = T + 1440 * 60 ∧
    jwtDecode (create_access_token sub T) SECRET_KEY t = .error .expired ∧
    get_current_permission_data db (create_access_token sub T) t =
      .error credentials_exception ∧
    credentials_exception.status = 401 := by
  have hdec : jwtDecode (create_access_token sub T) SECRET_KEY t =
      .error .expired := by
    simp [jwtDecode, create_access_token, ACCESS_TOKEN_EXPIRE_MINUTES]
    omega
  refine ⟨rfl, hdec, ?_, rfl⟩
  simp [get_current_permission_data, hdec]

/-- Witness for claim C5 at issuance time 0, decoded exactly at expiry. -/
theorem c5_witness :
    (create_access_token (some "alice") 0).payload.exp = 0 + 1440 * 60 ∧
    jwtDecode (create_access_token (some "alice") 0) SECRET_KEY 86400 =
      .error .expired ∧
    get_current_permission_data ⟨[], []⟩
      (create_access_token (some "alice") 0) 86400 =
        .error credentials_exception ∧
    credentials_exception.status = 401 :=
  c5_token_expiry (some "alice") ⟨[], []⟩ 0 86400 (by decide)

/-- Claim C6: decoding a token immediately after issuing it for a subject
(at any time strictly before its expiry, under the same signing secret)
succeeds and returns exactly that subject. -/
theorem c6_issue_decode_roundtrip (s : String) (T t : Nat)
    (h : t < T + 1440 * 60) :
    jwtDecode (create_access_token (some s) T) SECRET_KEY t =
      .ok { sub := some s, exp := T + 1440 * 60 } := by
  simp [jwtDecode, create_access_token, ACCESS_TOKEN_EXPIRE_MINUTES]
  omega

/-- Witness for claim C6: issue at time 0, decode at time 0. -/
theorem c6_witness :
    jwtDecode (create_access_token (some "alice") 0) SECRET_KEY 0 =
      .ok { sub := some "alice", exp := 0 + 1440 * 60 } :=
  c6_issue_decode_roundtrip "alice" 0 0 (by decide)

/-- Claim C7, counterexample: in a store holding an identity whose
username is the empty string, a validly signed, unexpired token whose
subject is the empty string authenticates successfully instead of failing
with Unauthorized. -/
theorem c7_counterexample_empty_subject_authenticates :
    get_current_permission_data ⟨[⟨1, "", "pw"⟩], []⟩
      (create_access_token (some "") 0) 0 = .ok ⟨1, []⟩ := by
  decide

/-- Helper: the Permission Store Adapter resolves a username to nothing
iff no stored identity carries that username. -/
theorem get_user_permissions_none_iff (db : AuthDB) (username : String) :
    get_user_permissions db username = none ↔
      ∀ u ∈ db.users, u.username ≠ username := by
  unfold get_user_permissions
  cases hfind : db.users.find? (fun u => u.username = username) with
  | none =>
      have hall : ∀ u ∈ db.users, u.username ≠ username := by
        rw [List.find?_eq_none] at hfind
        intro u hu
        simpa using hfind u hu
      simpa using hall
  | some u =>
      have hmem : u ∈ db.users := List.mem_of_find?_eq_some hfind
      have hname : u.username = username := by
        have := List.find?_some hfind
        simpa using this
      refine iff_of_false (by simp) ?_
      intro hall
      exact hall u hmem hname

/-- Claim C7, amended: for every store state and every validly signed,
unexpired token — if the subject claim is absent, authentication fails
with the 401 Unauthorized credentials response; if the subject is the
empty string, the code treats it as an ordinary username lookup, so
authentication fails with that response exactly when no stored identity
has the empty string as its username (and succeeds otherwise). -/
theorem c7_amended_absent_or_unmatched_empty_subject (db : AuthDB)
    (tok : JWTToken) (now : Nat) (p : JWTPayload)
    (hdec : jwtDecode tok SECRET_KEY now = .ok p) :
    (p.sub = none →
      get_current_permission_data db tok now =
        .error credentials_exception) ∧
    (p.sub = some "" →
      (get_current_permission_data db tok now =
          .error credentials_exception ↔
        ∀ u ∈ db.users, u.username ≠ "")) := by
  constructor
  · intro hnone
    simp [get_current_permission_data, hdec, hnone]
  · intro hempty
    have hmain : get_current_permission_data db tok now =
        match get_user_permissions db "" with
        | none => .error credentials_exception
        | some pd => .ok pd := by
      simp [get_current_permission_data, hdec, hempty]
    rw [← get_user_permissions_none_iff db ""]
    cases hperm : get_user_permissions db "" with
    | none => simp [hmain, hperm]
    | some pd => simp [hmain, hperm]

/-- Witness for the amended claim C7: a subject-less token against a
store with one ordinary identity fails with the credentials response, and
an empty-subject token fails against that same store (no empty username)
but succeeds against a store holding an empty-username identity. -/
theorem c7_amended_witness :
    get_current_permission_data ⟨[⟨1, "alice", "pw"⟩], []⟩
      (create_access_token none 0) 0 = .error credentials_exception ∧
    get_current_permission_data ⟨[⟨1, "alice", "pw"⟩], []⟩
      (create_access_token (some "") 0) 0 = .error credentials_exception ∧
    ¬ get_current_permission_data ⟨[⟨1, "", "pw"⟩], []⟩
      (create_access_token (some "") 0) 0 = .error credentials_exception :=
  ⟨(c7_amended_absent_or_unmatched_empty_subject ⟨[⟨1, "alice", "pw"⟩], []⟩
      (create_access_token none 0) 0
      ⟨none, ACCESS_TOKEN_EXPIRE_MINUTES * 60⟩ rfl).1 rfl,
    ((c7_amended_absent_or_unmatched_empty_subject ⟨[⟨1, "alice", "pw"⟩], []⟩
      (create_access_token (some "") 0) 0
      ⟨some "", ACCESS_TOKEN_EXPIRE_MINUTES * 60⟩ rfl).2 rfl).mpr
      (by decide),
    fun hcontra =>
      absurd
        (((c7_amended_absent_or_unmatched_empty_subject ⟨[⟨1, "", "pw"⟩], []⟩
          (create_access_token (some "") 0) 0
          ⟨some "", ACCESS_TOKEN_EXPIRE_MINUTES * 60⟩ rfl).2 rfl).mp hcontra)
        (by decide)⟩

/-! ### `app/routers/products.py` — product documents and lookups -/

/-- A document of the `products` collection. -/
structure ProductDoc where
  id : ObjectId
  name : String
  description : Option String
  price : ℚ
  deriving Repr, DecidableEq

/-- The 404 raised by `get_product_from_db`. -/
def productNotFound (product_id : ObjectId) : HTTPError :=
  { status := 404
    detail := s!"Product with id '{product_id}' not found"
    headers := [] }

/-- `get_product_from_db(db, product_id)`. -/
def get_product_from_db (products : List ProductDoc)
    (product_id : ObjectId) : Except HTTPError ProductDoc :=
  match products.find? (fun p => decide (p.id = product_id)) with
  | some p => .ok p
  | none => .error (productNotFound product_id)

/-! ### `app/routers/carts.py` — cart documents and handlers -/

/-- A document of the `carts` collection. -/
structure CartDoc where
  id : ObjectId
  user_id : ObjectId
  items : List ObjectId
  deriving Repr, DecidableEq

/-- `db.carts.find_one({"_id": cart_id, "user_id": user_id})`: first
document matching both fields. -/
def carts_find_one (carts : List CartDoc) (cart_id user_id : ObjectId) :
    Option CartDoc :=
  carts.find? (fun c => decide (c.id = cart_id ∧ c.user_id = user_id))

/-- `db.carts.update_one({"_id": cart_id, "user_id": user_id}, mod)`:
apply `f` to the first matching document, if any. -/
def carts_update_one (carts : List CartDoc) (cart_id user_id : ObjectId)
    (f : CartDoc → CartDoc) : List CartDoc :=
  match carts with
  | [] => []
  | c :: rest =>
      if c.id = cart_id ∧ c.user_id = user_id then f c :: rest
      else c :: carts_update_one rest cart_id user_id f

/-- `db.carts.delete_one({"_id": cart_id, "user_id": user_id})`: remove
the first matching document; returns `(deleted_count, new collection)`. -/
def carts_delete_one (carts : List CartDoc) (cart_id user_id : ObjectId) :
    Nat × List CartDoc :=
  match carts with
  | [] => (0, [])
  | c :: rest =>
      if c.id = cart_id ∧ c.user_id = user_id then (1, rest)
      else
        let r := carts_delete_one rest cart_id user_id
        (r.1, c :: r.2)

/-- The 404 raised by `get_cart_from_db` and `delete_cart`: the same
message whether the cart id does not exist or belongs to someone else. -/
def cartNotFound (cart_id user_id : ObjectId) : HTTPError :=
  { status := 404
    detail := s!"Cart with id {cart_id} not found for user {user_id}"
    headers := [] }

/-- `get_cart_from_db(db, user_id, cart_id)`: find the cart filtered by
both its id and the requesting user's id; 404 otherwise. -/
def get_cart_from_db (carts : List CartDoc) (user_id cart_id : ObjectId) :
    Except HTTPError CartDoc :=
  match carts_find_one carts cart_id user_id with
  | some c => .ok c
  | none => .error (cartNotFound cart_id user_id)

/-- `GET /users/me/carts/{cart_id}` (`get_cart`). -/
def get_cart (carts : List CartDoc) (current_user_id cart_id : ObjectId) :
    Except HTTPError CartDoc :=
  get_cart_from_db carts current_user_id cart_id

/-- `POST /users/me/carts/{cart_id}/items` (`add_item_to_cart`): resolve
the product, `$push` it onto the owner-filtered cart, then re-read the
cart (404 when the filter matched nothing). Returns the response and the
new carts collection. -/
def add_item_to_cart (carts : List CartDoc) (products : List ProductDoc)
    (current_user_id cart_id product_id : ObjectId) :
    Except HTTPError CartDoc × List CartDoc :=
  match get_product_from_db products product_id with
  | .error e => (.error e, carts)
  | .ok _ =>
      let carts2 := carts_update_one carts cart_id current_user_id
        (fun c => { c with items := c.items ++ [product_id] })
      (get_cart_from_db carts2 current_user_id cart_id, carts2)

/-- `DELETE /users/me/carts/{cart_id}/items/{product_id}`
(`remove_item_from_cart`): read the owner-filtered cart (404 on
mismatch), 400 when the product is not in it, else `$pull` every copy of
the product and re-read. -/
def remove_item_from_cart (carts : List CartDoc)
    (current_user_id cart_id product_id : ObjectId) :
    Except HTTPError CartDoc × List CartDoc :=
  match get_cart_from_db carts current_user_id cart_id with
  | .error e => (.error e, carts)
  | .ok cart =>
      if product_id ∉ cart.items then
        (.error { status := 400
                  detail := s!"No item with product id {product_id} in cart"
                  headers := [] }, carts)
      else
        let carts2 := carts_update_one carts cart_id current_user_id
          (fun c => { c with items := c.items.filter (fun i => decide (i ≠ product_id)) })
        (get_cart_from_db carts2 current_user_id cart_id, carts2)

/-- `DELETE /users/me/carts/{cart_id}/items` (`clear_cart`): `$set` the
owner-filtered cart's items to `[]`, then re-read (404 on mismatch). -/
def clear_cart (carts : List CartDoc) (current_user_id cart_id : ObjectId) :
    Except HTTPError CartDoc × List CartDoc :=
  let carts2 := carts_update_one carts cart_id current_user_id
    (fun c => { c with items := [] })
  (get_cart_from_db carts2 current_user_id cart_id, carts2)

/-- `DELETE /users/me/carts/{cart_id}` (`delete_cart`): owner-filtered
`delete_one`; 404 when nothing was deleted. -/
def delete_cart (carts : List CartDoc) (current_user_id cart_id : ObjectId) :
    Except HTTPError Unit × List CartDoc :=
  let r := carts_delete_one carts cart_id current_user_id
  if r.1 = 1 then (.ok (), r.2)
  else (.error (cartNotFound cart_id current_user_id), r.2)

/-! ### Theorems about cart ownership (claim C2) -/

/-- Helper: when no cart matches the `{_id, user_id}` filter, `find_one`
returns nothing. -/
theorem carts_find_one_no_match (carts : List CartDoc)
    (cart_id user_id : ObjectId)
    (h : ∀ c ∈ carts, ¬(c.id = cart_id ∧ c.user_id = user_id)) :
    carts_find_one carts cart_id user_id = none := by
  unfold carts_find_one
  rw [List.find?_eq_none]
  intro c hc
  simpa using h c hc

/-- Helper: when no cart matches the `{_id, user_id}` filter,
`update_one` leaves the collection unchanged. -/
theorem carts_update_one_no_match (carts : List CartDoc)
    (cart_id user_id : ObjectId) (f : CartDoc → CartDoc)
    (h : ∀ c ∈ carts, ¬(c.id = cart_id ∧ c.user_id = user_id)) :
    carts_update_one carts cart_id user_id f = carts := by
  induction carts with
  | nil => rfl
  | cons c rest ih =>
      have hc : ¬(c.id = cart_id ∧ c.user_id = user_id) :=
        h c (List.mem_cons_self c rest)
      show (if c.id = cart_id ∧ c.user_id = user_id then f c :: rest
        else c :: carts_update_one rest cart_id user_id f) = c :: rest
      rw [if_neg hc, ih (fun x hx => h x (List.mem_cons_of_mem c hx))]

/-- Helper: when no cart matches the `{_id, user_id}` filter,
`delete_one` deletes nothing. -/
theorem carts_delete_one_no_match (carts : List CartDoc)
    (cart_id user_id : ObjectId)
    (h : ∀ c ∈ carts, ¬(c.id = cart_id ∧ c.user_id = user_id)) :
    carts_delete_one carts cart_id user_id = (0, carts) := by
  induction carts with
  | nil => rfl
  | cons c rest ih =>
      have hc : ¬(c.id = cart_id ∧ c.user_id = user_id) :=
        h c (List.mem_cons_self c rest)
      show (if c.id = cart_id ∧ c.user_id = user_id then (1, rest)
        else ((carts_delete_one rest cart_id user_id).1,
          c :: (carts_delete_one rest cart_id user_id).2)) = (0, c :: rest)
      rw [if_neg hc, ih (fun x hx => h x (List.mem_cons_of_mem c hx))]

/-- Helper: a cart owned by someone other than the caller never matches
the caller's `{_id, user_id}` filter (cart ids are unique in the
collection, mirroring MongoDB's `_id`). -/
theorem owner_mismatch_no_match (carts : List CartDoc) (theCart : CartDoc)
    (callerId : ObjectId) (hmem : theCart ∈ carts)
    (hnd : (carts.map CartDoc.id).Nodup)
    (hne : theCart.user_id ≠ callerId) :
    ∀ c ∈ carts, ¬(c.id = theCart.id ∧ c.user_id = callerId) := by
  rintro c hc ⟨hid, huid⟩
  have hceq : c = theCart := List.inj_on_of_nodup_map hnd hc hmem hid
  exact hne (hceq ▸ huid)

/-- Claim C2: for an authenticated caller and a cart owned by a different
identity, each "me"-scoped cart operation (get, add item, remove item,
clear, delete) fails with the 404 cart-not-found error — byte-identical
to the error for a cart id not present at all (the cart-free collection
gives the same response), with status 404 and never 403 — and the carts
collection is left unchanged. -/
theorem c2_cart_ownership_isolation (carts : List CartDoc)
    (products : List ProductDoc) (theCart : CartDoc)
    (callerId pid : ObjectId) (prod : ProductDoc)
    (hmem : theCart ∈ carts)
    (hnd : (carts.map CartDoc.id).Nodup)
    (hne : theCart.user_id ≠ callerId)
    (hprod : get_product_from_db products pid = .ok prod) :
    get_cart carts callerId theCart.id =
      .error (cartNotFound theCart.id callerId) ∧
    add_item_to_cart carts products callerId theCart.id pid =
      (.error (cartNotFound theCart.id callerId), carts) ∧
    remove_item_from_cart carts callerId theCart.id pid =
      (.error (cartNotFound theCart.id callerId), carts) ∧
    clear_cart carts callerId theCart.id =
      (.error (cartNotFound theCart.id callerId), carts) ∧
    delete_cart carts callerId theCart.id =
      (.error (cartNotFound theCart.id callerId), carts) ∧
    get_cart [] callerId theCart.id =
      .error (cartNotFound theCart.id callerId) ∧
    (cartNotFound theCart.id callerId).status = 404 ∧
    (cartNotFound theCart.id callerId).status ≠ 403 := by
  have hno := owner_mismatch_no_match carts theCart callerId hmem hnd hne
  have hfind := carts_find_one_no_match carts theCart.id callerId hno
  have hdel := carts_delete_one_no_match carts theCart.id callerId hno
  have hget : get_cart_from_db carts callerId theCart.id =
      .error (cartNotFound theCart.id callerId) := by
    simp [get_cart_from_db, hfind]
  refine ⟨hget, ?_, ?_, ?_, ?_, rfl, rfl, by simp [cartNotFound]⟩
  · have hupd := carts_update_one_no_match carts theCart.id callerId
      (fun c => { c with items := c.items ++ [pid] }) hno
    simp only [add_item_to_cart, hprod, hupd]
    exact Prod.ext hget rfl
  · simp only [remove_item_from_cart, hget]
  · have hupd := carts_update_one_no_match carts theCart.id callerId
      (fun c => { c with items := [] }) hno
    simp only [clear_cart, hupd]
    exact Prod.ext hget rfl
  · simp only [delete_cart, hdel]
    norm_num

/-- Witness for claim C2: caller 1 against a cart owned by identity 2. -/
theorem c2_witness :
    get_cart [⟨10, 2, []⟩] 1 10 = .error (cartNotFound 10 1) ∧
    add_item_to_cart [⟨10, 2, []⟩] [⟨5, "widget", none, 3⟩] 1 10 5 =
      (.error (cartNotFound 10 1), [⟨10, 2, []⟩]) ∧
    remove_item_from_cart [⟨10, 2, []⟩] 1 10 5 =
      (.error (cartNotFound 10 1), [⟨10, 2, []⟩]) ∧
    clear_cart [⟨10, 2, []⟩] 1 10 =
      (.error (cartNotFound 10 1), [⟨10, 2, []⟩]) ∧
    delete_cart [⟨10, 2, []⟩] 1 10 =
      (.error (cartNotFound 10 1), [⟨10, 2, []⟩]) ∧
    get_cart [] 1 10 = .error (cartNotFound 10 1) ∧
    (cartNotFound 10 1).status = 404 ∧
    (cartNotFound 10 1).status ≠ 403 :=
  c2_cart_ownership_isolation [⟨10, 2, []⟩] [⟨5, "widget", none, 3⟩]
    ⟨10, 2, []⟩ 1 5 ⟨5, "widget", none, 3⟩ (by decide) (by decide)
    (by decide) (by decide)

/-! ### `app/routers/users.py` — registration (claim C8) -/

/-- `BASE_PERMISSIONS` from `app/routers/users.py`. -/
def BASE_PERMISSIONS : List String := ["shopper", "me"]

/-- `ADMIN_PERMISSIONS` from `app/routers/users.py`. -/
def ADMIN_PERMISSIONS : List String := ["admin"]

/-- `get_password_hash` wraps passlib's bcrypt hashing (external to the
repository); the digest is opaque to every claim, so it is modelled as a
tagged copy of the input. -/
def get_password_hash (password : String) : String :=
  "bcrypt$" ++ password

/-- The collections touched by registration. -/
structure DBState where
  users : List UserDoc
  permissions : List PermissionDoc
  carts : List CartDoc
  deriving Repr, DecidableEq

/-- `db.users.insert_one` under the unique index on `username` created by
`ensure_indexes` (`app/db.py`): raises `DuplicateKeyError` when an
identity with the same username is already stored. -/
def users_insert_one (users : List UserDoc) (doc : UserDoc) :
    Except Unit (List UserDoc) :=
  if users.any (fun u => decide (u.username = doc.username)) then .error ()
  else .ok (users ++ [doc])

/-- The 400 returned by `create_user` on `DuplicateKeyError`. -/
def duplicate_username_error : HTTPError :=
  { status := 400, detail := "username already exists", headers := [] }

/-- `POST /users/` (`create_user`): insert the identity (username plus
password hash); on `DuplicateKeyError` answer the duplicate-username
error; otherwise create the base permissions (plus the admin set when
requested) and an empty cart. The store-assigned fresh `_id`s are passed
in as `newUserId` / `newCartId`. -/
def create_user (db : DBState) (newUserId newCartId : ObjectId)
    (username password : String) (admin : Bool) :
    Except HTTPError (UserDoc × CartDoc) × DBState :=
  match users_insert_one db.users
      ⟨newUserId, username, get_password_hash password⟩ with
  | .error _ => (.error duplicate_username_error, db)
  | .ok users2 =>
      let newPerms :=
        BASE_PERMISSIONS.map (fun s => PermissionDoc.mk newUserId s) ++
          (if admin then
            ADMIN_PERMISSIONS.map (fun s => PermissionDoc.mk newUserId s)
          else [])
      let cart : CartDoc := ⟨newCartId, newUserId, []⟩
      (.ok (⟨newUserId, username, get_password_hash password⟩, cart),
        ⟨users2, db.permissions ++ newPerms, db.carts ++ [cart]⟩)

/-- Claim C8: registering a username equal to the username of an
already-stored identity fails with the uniqueness-violation error
("username already exists") and leaves the store unchanged — no new
identity, permission grant or cart is created. -/
theorem c8_duplicate_username_rejected (db : DBState)
    (newUserId newCartId : ObjectId) (username password : String)
    (admin : Bool) (u : UserDoc) (hu : u ∈ db.users)
    (hname : u.username = username) :
    create_user db newUserId newCartId username password admin =
      (.error duplicate_username_error, db) ∧
    duplicate_username_error.detail = "username already exists" := by
  have hdup : db.users.any (fun v => decide (v.username = username)) = true := by
    rw [List.any_eq_true]
    exact ⟨u, hu, decide_eq_true hname⟩
  refine ⟨?_, rfl⟩
  simp [create_user, users_insert_one, hdup]

/-- Witness for claim C8: re-registering "alice". -/
theorem c8_witness :
    create_user ⟨[⟨1, "alice", "bcrypt$pw"⟩], [], []⟩ 2 3 "alice" "pw2"
        false =
      (.error duplicate_username_error,
        ⟨[⟨1, "alice", "bcrypt$pw"⟩], [], []⟩) ∧
    duplicate_username_error.detail = "username already exists" :=
  c8_duplicate_username_rejected ⟨[⟨1, "alice", "bcrypt$pw"⟩], [], []⟩ 2 3
    "alice" "pw2" false ⟨1, "alice", "bcrypt$pw"⟩ (by decide) rfl

/-! ### `app/routers/products.py` — listing (claims C9, C10) -/

/-- `SortingFields` enum. -/
inductive SortingFields where
  | name
  | price
  deriving Repr, DecidableEq

/-- `SortingOrder` enum. -/
inductive SortingOrder where
  | ascending
  | descending
  deriving Repr, DecidableEq

/-- `PriceFilterOp` enum. -/
inductive PriceFilterOp where
  | gt
  | lt
  | gte
  | lte
  deriving Repr, DecidableEq

/-- Python truthiness of an optional enum query parameter: `None` is
falsy and every enum member is truthy. -/
def enumTruthy {α : Type} : Option α → Bool
  | none => false
  | some _ => true

/-- Python truthiness of the optional float `price_filter_value`: `None`
and `0.0` are falsy, every other number is truthy. -/
def valueTruthy : Option ℚ → Bool
  | none => false
  | some v => decide (v ≠ 0)

/-- The 400 for an inconsistent sort/order pair. -/
def sort_order_error : HTTPError :=
  { status := 400
    detail := "Invalid combination of sort and order parameters"
    headers := [] }

/-- The 400 for an inconsistent price-filter pair. -/
def price_combo_error : HTTPError :=
  { status := 400
    detail := "Invalid combination of price_filter_op and price_filter_value parameters"
    headers := [] }

/-- The price comparison denoted by `build_query`'s Mongo operator. -/
def price_matches : PriceFilterOp → ℚ → ℚ → Bool
  | .gt, thr, p => decide (p > thr)
  | .lt, thr, p => decide (p < thr)
  | .gte, thr, p => decide (p ≥ thr)
  | .lte, thr, p => decide (p ≤ thr)

/-- Whether a product satisfies the (optional) price query. -/
def matchesQuery (q : Option (PriceFilterOp × ℚ)) (p : ProductDoc) : Bool :=
  match q with
  | none => true
  | some oq => price_matches oq.1 oq.2 p.price

/-- Insertion step of the model of `cursor.sort` (only the length of the
sorted output matters to the claims below). -/
def insertSorted {α : Type} (le : α → α → Bool) (x : α) : List α → List α
  | [] => [x]
  | y :: ys => if le x y then x :: y :: ys else y :: insertSorted le x ys

/-- Model of `cursor.sort({field: ±1})` as an insertion sort. -/
def sortByKey {α : Type} (le : α → α → Bool) : List α → List α
  | [] => []
  | x :: xs => insertSorted le x (sortByKey le xs)

/-- The comparator `cursor.sort` uses for each field/direction. -/
def productLE (f : SortingFields) (o : SortingOrder) (a b : ProductDoc) :
    Bool :=
  match f, o with
  | .name, .ascending => !(decide (b.name < a.name))
  | .name, .descending => !(decide (a.name < b.name))
  | .price, .ascending => decide (a.price ≤ b.price)
  | .price, .descending => decide (b.price ≤ a.price)

/-- `cursor.limit(n)`: at most `n` documents, `limit(0)` meaning no
limit (MongoDB semantics). -/
def mongoLimit {α : Type} (n : Nat) (l : List α) : List α :=
  if n = 0 then l else l.take n

/-- The `ProductList` response model. -/
structure ProductList where
  skip : Nat
  limit : Nat
  total_results : Nat
  products : List ProductDoc
  deriving Repr, DecidableEq

/-- `GET /products/` (`list_products`): the two parameter-pair checks use
Python truthiness (`(sort or order) and not (sort and order)`, likewise
for the price pair); then the optional price query is built (again by
truthiness), the matches are counted, optionally sorted, paged with
`skip` and `limit`, and materialised by `to_list(length=100)`, which
returns at most 100 documents. -/
def list_products (products : List ProductDoc) (skip limit : Nat)
    (sort : Option SortingFields) (order : Option SortingOrder)
    (price_filter_op : Option PriceFilterOp)
    (price_filter_value : Option ℚ) : Except HTTPError ProductList :=
  if (enumTruthy sort || enumTruthy order) &&
      !(enumTruthy sort && enumTruthy order) then
    .error sort_order_error
  else if (enumTruthy price_filter_op || valueTruthy price_filter_value) &&
      !(enumTruthy price_filter_op && valueTruthy price_filter_value) then
    .error price_combo_error
  else
    let query : Option (PriceFilterOp × ℚ) :=
      match price_filter_op, price_filter_value with
      | some o, some v => if v ≠ 0 then some (o, v) else none
      | _, _ => none
    let matched := products.filter (matchesQuery query)
    let sorted :=
      match sort, order with
      | some f, some o => sortByKey (productLE f o) matched
      | _, _ => matched
    let paged := (mongoLimit limit (sorted.drop skip)).take 100
    .ok ⟨skip, limit, matched.length, paged⟩

/-- Whether a handler outcome is an error response. -/
def isErr {ε α : Type} : Except ε α → Bool
  | .error _ => true
  | .ok _ => false

/-- Claim C9, counterexample: supplying `price_filter_op=gt` together
with `price_filter_value=0` supplies both members of the price pair, yet
the request is rejected 400 (Python treats the float `0.0` as falsy in
the presence check), contradicting "when both members of each supplied
pair are present the request passes this validation". -/
theorem c9_counterexample_zero_value_rejected :
    list_products [] 0 100 none none (some PriceFilterOp.gt) (some 0) =
      .error price_combo_error ∧
    price_combo_error.status = 400 := by
  constructor
  · rfl
  · rfl

/-- Claim C9, amended: the listing is rejected exactly when the
truthy-presence of `sort` and `order` differ, or the truthy-presence of
`price_filter_op` and `price_filter_value` differ — where a supplied
`price_filter_value` of 0 counts as absent (Python float truthiness)
while every other supplied value and every supplied enum parameter counts
as present; every rejection is one of the two 400 invalid-combination
errors, and otherwise the request passes validation. -/
theorem c9_amended_validation_iff_truthy_presence
    (products : List ProductDoc) (skip limit : Nat)
    (sort : Option SortingFields) (order : Option SortingOrder)
    (op : Option PriceFilterOp) (v : Option ℚ) :
    isErr (list_products products skip limit sort order op v) =
      ((enumTruthy sort != enumTruthy order) ||
        (enumTruthy op != valueTruthy v)) ∧
    sort_order_error.status = 400 ∧
    price_combo_error.status = 400 ∧
    (list_products products skip limit sort order op v =
        .error sort_order_error ∨
      list_products products skip limit sort order op v =
        .error price_combo_error ∨
      isErr (list_products products skip limit sort order op v) = false) := by
  refine ⟨?_, rfl, rfl, ?_⟩ <;>
    cases hs : enumTruthy sort <;> cases ho : enumTruthy order <;>
      cases hop : enumTruthy op <;> cases hv : valueTruthy v <;>
        simp [list_products, isErr, hs, ho, hop, hv]

/-- Claim C10: a successful product listing returns at most 100
products, whatever `limit` the caller supplied (even a limit above 100
with more than 100 matching products), while the echoed `limit` field
reports the caller-supplied value. -/
theorem c10_listing_capped_at_100 (products : List ProductDoc)
    (skip limit : Nat) (sort : Option SortingFields)
    (order : Option SortingOrder) (op : Option PriceFilterOp)
    (v : Option ℚ) (r : ProductList)
    (h : list_products products skip limit sort order op v = .ok r) :
    r.products.length ≤ 100 ∧ r.limit = limit := by
  unfold list_products at h
  split at h
  · simp at h
  split at h
  · simp at h
  injection h with h2
  subst h2
  refine ⟨?_, rfl⟩
  simp

/-- Witness for claim C10: three products listed with `limit=2`. -/
theorem c10_witness :
    (ProductList.mk 0 2 3
        [⟨1, "a", none, 2⟩, ⟨2, "b", none, 3⟩]).products.length ≤ 100 ∧
    (ProductList.mk 0 2 3 [⟨1, "a", none, 2⟩, ⟨2, "b", none, 3⟩]).limit = 2 :=
  c10_listing_capped_at_100
    [⟨1, "a", none, 2⟩, ⟨2, "b", none, 3⟩, ⟨3, "c", none, 4⟩]
    0 2 none none none none
    (ProductList.mk 0 2 3 [⟨1, "a", none, 2⟩, ⟨2, "b", none, 3⟩])
    (by decide)

end App
